import Mathlib

/-!
Verification of the token-based authentication and session-lifecycle engine
of the MultitaskProject backend (auth-svc).

The Go sources are embedded shallowly:
* JWT signing/parsing (`github.com/golang-jwt/jwt/v5`) is modelled by a
  `SignedToken` carrying its payload, the signing key and the signing-method
  family; `jwtParse` accepts exactly the tokens signed with the expected
  HMAC key whose `exp` claim has not elapsed, as the library does under the
  key functions used in the source.
* Times are unix seconds (`Int`); `time.Now().UTC()` becomes an explicit
  `now` parameter, and the `uuid.New()` / `generateSecureToken` calls become
  explicit fresh-name parameters of an `Env` record, so every operation is a
  deterministic function of its inputs.
* The two repositories are interfaces in the source whose DynamoDB
  implementations are absent (the checked-in implementations are TODO
  stubs); their operations are modelled from the spec, over an explicit
  `RepoState`.
* The external email dispatch (SES, marked TODO in the source) is modelled
  from the spec as an outcome bit of `Env`.
-/

namespace MultitaskAuth

/-- A JSON claim value as used in the JWT payloads of the source
(`jwt.MapClaims`): strings, integers and string lists. -/
inductive ClaimValue where
  | str (s : String)
  | num (n : Int)
  | strs (l : List String)
  deriving DecidableEq, Repr

/-- A signed JWT as produced by `jwt.NewWithClaims(...).SignedString(key)`:
the claim payload together with the key that signed it and whether the
signing method is in the HMAC family. -/
structure SignedToken where
  payload : List (String × ClaimValue)
  key : String
  hmacAlg : Bool
  deriving DecidableEq, Repr

/-- Look up a claim in a payload (first binding wins, as in a Go map built
from literal keys). -/
def lookupClaim (p : List (String × ClaimValue)) (k : String) : Option ClaimValue :=
  (p.find? (fun kv => kv.1 == k)).map (fun kv => kv.2)

/-- Embeds `claims[k].(string)` with the `ok` flag ignored: a missing or
non-string claim yields `""`, exactly as in the Go type assertions of
`parseRefreshToken` and `AuthMiddleware`. -/
def claimString (p : List (String × ClaimValue)) (k : String) : String :=
  match lookupClaim p k with
  | some (ClaimValue.str s) => s
  | _ => ""

/-- Embeds `claims["roles"].([]interface{})` followed by `convertRoles`: a missing
or non-list claim yields the empty list; string elements are kept. -/
def claimRoles (p : List (String × ClaimValue)) : List String :=
  match lookupClaim p "roles" with
  | some (ClaimValue.strs l) => l
  | _ => []

/-- The `exp` claim of a payload, when present as a number. -/
def claimExp (p : List (String × ClaimValue)) : Option Int :=
  match lookupClaim p "exp" with
  | some (ClaimValue.num n) => some n
  | _ => none

/-- Embeds `jwt.Parse` with the HMAC key function used in both `AuthMiddleware`
and `parseRefreshToken`: the token is valid iff it was signed by an HMAC
method with the service secret and `now` is strictly before its `exp`
claim, as the v5 library validates expiry with `cmp.Before(exp)` at zero
leeway (`now` is unix seconds). The library also validates `nbf`, but no
token generated by this service carries an `nbf` claim, so that check is
vacuous here. -/
def jwtParse (secret : String) (now : Int) (t : SignedToken) :
    Option (List (String × ClaimValue)) :=
  if t.hmacAlg && t.key == secret && (match claimExp t.payload with
      | some e => decide (now < e)
      | none => true) then
    some t.payload
  else
    none

/-- Token-type constants of `models`. -/
def TokenTypeAccess : String := "access"

def TokenTypeRefresh : String := "refresh"

/-- Embeds `models.DefaultSessionDuration` (15 min), in seconds. -/
def defaultSessionDuration : Int := 15 * 60

/-- Embeds `models.DefaultRefreshDuration` (7 days), in seconds. -/
def defaultRefreshDuration : Int := 7 * 24 * 60 * 60

/-- Embeds `models.DefaultResetTokenDuration` (1 h), in seconds. -/
def defaultResetTokenDuration : Int := 60 * 60

/-- Embeds `models.DefaultVerifyTokenDuration` (24 h), in seconds. -/
def defaultVerifyTokenDuration : Int := 24 * 60 * 60

/-- Embeds `models.DefaultAnonymousDuration` (24 h), in seconds. -/
def defaultAnonymousDuration : Int := 24 * 60 * 60

/-- Embeds `models.User` (timestamps as unix seconds). -/
structure User where
  id : String
  email : String
  name : String
  isVerified : Bool
  isActive : Bool
  roles : List String
  createdAt : Int
  updatedAt : Int
  lastLoginAt : Option Int
  deriving DecidableEq, Repr

/-- Embeds `models.Session`. -/
structure Session where
  id : String
  userId : String
  deviceId : String
  userAgent : String
  ipAddress : String
  createdAt : Int
  expiresAt : Int
  isActive : Bool
  deriving DecidableEq, Repr

/-- Embeds `(s *Session) IsExpired()`: `time.Now().UTC().After(s.ExpiresAt)`. -/
def Session.isExpired (now : Int) (s : Session) : Bool :=
  decide (now > s.expiresAt)

/-- Embeds `models.PasswordResetToken`. -/
structure PasswordResetToken where
  userId : String
  tokenValue : String
  expiresAt : Int
  used : Bool
  createdAt : Int
  deriving DecidableEq, Repr

/-- Embeds `models.EmailVerificationToken`. -/
structure EmailVerificationToken where
  userId : String
  tokenValue : String
  email : String
  expiresAt : Int
  used : Bool
  createdAt : Int
  deriving DecidableEq, Repr

/-- Embeds `models.AnonymousSession`. -/
structure AnonymousSession where
  id : String
  tokenValue : SignedToken
  createdAt : Int
  expiresAt : Int
  deriving DecidableEq, Repr

/-- Embeds `models.TokenClaims` as materialised by `parseRefreshToken` (only
`UserID` and `SessionID` are filled in by the source). -/
structure RefreshClaims where
  userID : String
  sessionID : String
  deriving DecidableEq, Repr

/-- Embeds `services.AuthService.generateAccessToken`: HMAC token with the user's
claims, the session id, a 15-minute expiry and `type = "access"`. -/
def generateAccessToken (secret : String) (now : Int) (user : User)
    (sessionID : String) : SignedToken :=
  { payload :=
      [("sub", ClaimValue.str user.id),
       ("email", ClaimValue.str user.email),
       ("name", ClaimValue.str user.name),
       ("roles", ClaimValue.strs user.roles),
       ("session_id", ClaimValue.str sessionID),
       ("iat", ClaimValue.num now),
       ("exp", ClaimValue.num (now + defaultSessionDuration)),
       ("type", ClaimValue.str TokenTypeAccess)],
    key := secret,
    hmacAlg := true }

/-- Embeds `services.AuthService.generateRefreshToken`: HMAC token with the user
id, the session id, a 7-day expiry and `type = "refresh"`. -/
def generateRefreshToken (secret : String) (now : Int) (userID sessionID : String) :
    SignedToken :=
  { payload :=
      [("sub", ClaimValue.str userID),
       ("session_id", ClaimValue.str sessionID),
       ("iat", ClaimValue.num now),
       ("exp", ClaimValue.num (now + defaultRefreshDuration)),
       ("type", ClaimValue.str TokenTypeRefresh)],
    key := secret,
    hmacAlg := true }

/-- Embeds `services.AuthService.generateAnonymousToken`. -/
def generateAnonymousToken (secret : String) (now : Int) (sessionID : String) :
    SignedToken :=
  { payload :=
      [("session_id", ClaimValue.str sessionID),
       ("iat", ClaimValue.num now),
       ("exp", ClaimValue.num (now + defaultAnonymousDuration)),
       ("type", ClaimValue.str "anonymous")],
    key := secret,
    hmacAlg := true }

/-- Embeds `services.AuthService.parseRefreshToken`: parse with the HMAC key
function, require `type == "refresh"` and non-empty `sub` and
`session_id`; every failure collapses to `none` (the caller maps any
error to `ErrInvalidToken`). -/
def parseRefreshToken (secret : String) (now : Int) (t : SignedToken) :
    Option RefreshClaims :=
  match jwtParse secret now t with
  | none => none
  | some payload =>
    if claimString payload "type" ≠ TokenTypeRefresh then none
    else
      let userID := claimString payload "sub"
      let sessionID := claimString payload "session_id"
      if userID = "" ∨ sessionID = "" then none
      else some { userID := userID, sessionID := sessionID }

/-- Embeds `middleware.UserClaims`. -/
structure UserClaims where
  userID : String
  email : String
  roles : List String
  deriving DecidableEq, Repr

/-- The `Authorization` header of a request, after the string splitting of
`AuthMiddleware` (which is transport glue): absent, malformed (not exactly
`Bearer <token>`), or a bearer token. -/
inductive AuthHeader where
  | missing
  | malformed
  | bearer (t : SignedToken)
  deriving DecidableEq, Repr

/-- The observable outcome of `AuthMiddleware`: a 401 rejection with the
given JSON error body, or proceeding into the handler with the extracted
claims attached to the context. -/
inductive MwOutcome where
  | reject (body : String)
  | proceed (claims : UserClaims)
  deriving DecidableEq, Repr

/-- Embeds `middleware.AuthMiddleware`: extract the bearer token, `jwt.Parse` it
against the service secret, extract `sub`, `email`, `roles`, reject when
`sub` is empty, otherwise invoke the wrapped handler with the claims.
Note the source checks the signature, the expiry and the `sub` claim, but
never the `type` claim. -/
def authMiddleware (secret : String) (now : Int) : AuthHeader → MwOutcome
  | AuthHeader.missing => MwOutcome.reject "missing authorization header"
  | AuthHeader.malformed => MwOutcome.reject "invalid authorization format"
  | AuthHeader.bearer t =>
    match jwtParse secret now t with
    | none => MwOutcome.reject "invalid or expired token"
    | some payload =>
      let userID := claimString payload "sub"
      if userID = "" then MwOutcome.reject "missing user ID in token"
      else
        MwOutcome.proceed
          { userID := userID,
            email := claimString payload "email",
            roles := claimRoles payload }

/-- The persisted state behind the two repository interfaces
(`repositories.UserRepository`, `repositories.SessionRepository`): user
records, password hashes keyed by user id, sessions, reset and
verification tokens, anonymous sessions. -/
structure RepoState where
  users : List User
  hashes : List (String × String)
  sessions : List Session
  resetTokens : List PasswordResetToken
  verifyTokens : List EmailVerificationToken
  anonSessions : List AnonymousSession
  deriving DecidableEq, Repr

/-- Modelled from the spec: the bcrypt hash of the external
`golang.org/x/crypto/bcrypt` library, abstracted to an injective tagging
function (hashing is deterministic here; the salt is irrelevant to the
claims). -/
def hashPassword (password : String) : String :=
  "bcrypt$" ++ password

/-- Modelled from the spec: `bcrypt.CompareHashAndPassword` succeeds iff
the stored hash is the hash of the candidate password. -/
def bcryptVerify (storedHash password : String) : Bool :=
  storedHash == hashPassword password

/-- Modelled from the spec: `UserRepository.GetUser` — the user record
with the given id, or `ErrUserNotFound`. -/
def getUser (st : RepoState) (userID : String) : Option User :=
  st.users.find? (fun u => u.id == userID)

/-- Modelled from the spec: `UserRepository.GetUserByEmail`. -/
def getUserByEmail (st : RepoState) (email : String) : Option User :=
  st.users.find? (fun u => u.email == email)

/-- Modelled from the spec: `UserRepository.CreateUser` persists the user
record and its password hash. -/
def createUser (st : RepoState) (u : User) (passwordHash : String) : RepoState :=
  { st with users := u :: st.users, hashes := (u.id, passwordHash) :: st.hashes }

/-- Modelled from the spec: `UserRepository.GetPasswordHash`. -/
def getPasswordHash (st : RepoState) (userID : String) : Option String :=
  (st.hashes.find? (fun kv => kv.1 == userID)).map (fun kv => kv.2)

/-- Replace the binding for `userID` in an association list of password
hashes (append when absent). -/
def setHash : List (String × String) → String → String → List (String × String)
  | [], userID, h => [(userID, h)]
  | kv :: rest, userID, h =>
    if kv.1 == userID then (userID, h) :: rest else kv :: setHash rest userID h

/-- Modelled from the spec: `UserRepository.UpdatePassword` stores the new
hash for the user and touches nothing else. -/
def updatePassword (st : RepoState) (userID passwordHash : String) : RepoState :=
  { st with hashes := setHash st.hashes userID passwordHash }

/-- Modelled from the spec: `UserRepository.UpdateLastLogin` stamps
`lastLoginAt` on the user record. -/
def updateLastLogin (st : RepoState) (userID : String) (t : Int) : RepoState :=
  { st with users :=
      st.users.map (fun u =>
        if u.id == userID then { u with lastLoginAt := some t } else u) }

/-- Modelled from the spec: `UserRepository.MarkUserVerified`. -/
def markUserVerified (st : RepoState) (userID : String) : RepoState :=
  { st with users :=
      st.users.map (fun u =>
        if u.id == userID then { u with isVerified := true } else u) }

/-- Modelled from the spec: `UserRepository.CreatePasswordResetToken`
stores a fresh unused token expiring after the given duration. -/
def createPasswordResetToken (st : RepoState) (userID tok : String)
    (now duration : Int) : RepoState :=
  { st with resetTokens :=
      { userId := userID, tokenValue := tok, expiresAt := now + duration,
        used := false, createdAt := now } :: st.resetTokens }

/-- Repository-level token verification errors
(`repositories.ErrTokenNotFound`, `repositories.ErrTokenExpired`). -/
inductive TokenRepoErr where
  | notFound
  | expired
  deriving DecidableEq, Repr

/-- Modelled from the spec: `UserRepository.VerifyPasswordResetToken` —
a token is valid only if it exists, `used = false` and `now` is before
`expiresAt`; a used or unknown token is `ErrTokenNotFound` and a timed-out
one `ErrTokenExpired`; on success the owning user id is returned. -/
def verifyPasswordResetToken (st : RepoState) (tok : String) (now : Int) :
    Except TokenRepoErr String :=
  match st.resetTokens.find? (fun r => r.tokenValue == tok) with
  | none => Except.error TokenRepoErr.notFound
  | some r =>
    if r.used then Except.error TokenRepoErr.notFound
    else if decide (now ≥ r.expiresAt) then Except.error TokenRepoErr.expired
    else Except.ok r.userId

/-- Modelled from the spec: `UserRepository.MarkPasswordResetTokenUsed`. -/
def markPasswordResetTokenUsed (st : RepoState) (tok : String) : RepoState :=
  { st with resetTokens :=
      st.resetTokens.map (fun r =>
        if r.tokenValue == tok then { r with used := true } else r) }

/-- Modelled from the spec: `UserRepository.CreateEmailVerificationToken`. -/
def createEmailVerificationToken (st : RepoState) (userID email tok : String)
    (now duration : Int) : RepoState :=
  { st with verifyTokens :=
      { userId := userID, tokenValue := tok, email := email,
        expiresAt := now + duration, used := false, createdAt := now }
        :: st.verifyTokens }

/-- Modelled from the spec: `UserRepository.VerifyEmailToken`, under the
same validity rule as password-reset tokens. -/
def verifyEmailToken (st : RepoState) (tok : String) (now : Int) :
    Except TokenRepoErr String :=
  match st.verifyTokens.find? (fun r => r.tokenValue == tok) with
  | none => Except.error TokenRepoErr.notFound
  | some r =>
    if r.used then Except.error TokenRepoErr.notFound
    else if decide (now ≥ r.expiresAt) then Except.error TokenRepoErr.expired
    else Except.ok r.userId

/-- Modelled from the spec: `UserRepository.MarkEmailTokenUsed`. -/
def markEmailTokenUsed (st : RepoState) (tok : String) : RepoState :=
  { st with verifyTokens :=
      st.verifyTokens.map (fun r =>
        if r.tokenValue == tok then { r with used := true } else r) }

/-- Modelled from the spec: `SessionRepository.CreateSession`. -/
def createSessionRepo (st : RepoState) (s : Session) : RepoState :=
  { st with sessions := s :: st.sessions }

/-- Modelled from the spec: `SessionRepository.GetSession`, or
`ErrSessionNotFound`. -/
def getSession (st : RepoState) (sessionID : String) : Option Session :=
  st.sessions.find? (fun s => s.id == sessionID)

/-- Modelled from the spec: `SessionRepository.DeactivateSession` sets
`isActive = false` on the matching session. -/
def deactivateSession (st : RepoState) (sessionID : String) : RepoState :=
  { st with sessions :=
      st.sessions.map (fun s =>
        if s.id == sessionID then { s with isActive := false } else s) }

/-- Modelled from the spec: `SessionRepository.DeactivateUserSessions`
sets `isActive = false` on every session of the user. -/
def deactivateUserSessions (st : RepoState) (userID : String) : RepoState :=
  { st with sessions :=
      st.sessions.map (fun s =>
        if s.userId == userID then { s with isActive := false } else s) }

/-- Modelled from the spec: `SessionRepository.CreateAnonymousSession`. -/
def createAnonymousSessionRepo (st : RepoState) (s : AnonymousSession) : RepoState :=
  { st with anonSessions := s :: st.anonSessions }

/-- The error taxonomy of `services` (`ErrInvalidCredentials` … ) plus a
constructor for errors built with `fmt.Errorf` wrapping. -/
inductive AuthError where
  | invalidCredentials
  | userAlreadyExists
  | userNotFound
  | userNotVerified
  | userDisabled
  | invalidToken
  | tokenExpired
  | sessionNotFound
  | internal (msg : String)
  deriving DecidableEq, Repr

/-- The ambient inputs of a service call: the configured JWT secret, the
current unix time, the fresh ids minted by `uuid.New()` and
`generateSecureToken` during the call, and — modelled from the spec — the
outcome of the external (TODO in the source) email dispatch. -/
structure Env where
  secret : String
  now : Int
  newId : String
  newSecureToken : String
  emailOk : Bool
  deriving DecidableEq, Repr

/-- Embeds `models.LoginRequest`. -/
structure LoginRequest where
  email : String
  password : String
  deviceId : String
  deriving DecidableEq, Repr

/-- Embeds `models.RegisterRequest`. -/
structure RegisterRequest where
  email : String
  password : String
  name : String
  deriving DecidableEq, Repr

/-- Embeds `models.AuthResponse` (the `User` field is the sanitized copy, which
in the source copies every field). -/
structure AuthResponse where
  accessToken : SignedToken
  refreshToken : SignedToken
  expiresIn : Int
  user : User
  deriving DecidableEq, Repr

/-- Embeds `AuthService.verifyPassword`, as observed by its two callers (both
collapse any failure to `ErrInvalidCredentials`): the stored hash exists
and bcrypt-verifies against the candidate password. -/
def verifyPasswordOk (st : RepoState) (userID password : String) : Bool :=
  match getPasswordHash st userID with
  | none => false
  | some h => bcryptVerify h password

/-- The session record minted by `AuthService.createSession`: a fresh id,
the request metadata and a 7-day expiry. -/
def loginSession (env : Env) (userID deviceID : String) : Session :=
  { id := env.newId, userId := userID, deviceId := deviceID,
    userAgent := "", ipAddress := "",
    createdAt := env.now, expiresAt := env.now + defaultRefreshDuration,
    isActive := true }

/-- Embeds `AuthService.createSession`: mint a session with a fresh id, the
request metadata and a 7-day expiry, and persist it. -/
def createSession (env : Env) (st : RepoState) (userID deviceID : String) :
    Session × RepoState :=
  (loginSession env userID deviceID, createSessionRepo st (loginSession env userID deviceID))

/-- Embeds `AuthService.sendVerificationEmail`: mint a secure token, store it as
an `EmailVerificationToken` (24 h), then dispatch the email. The SES
dispatch is TODO in the source and is modelled from the spec by
`env.emailOk`; the returned flag tells the caller whether the step
succeeded. -/
def sendVerificationEmail (env : Env) (st : RepoState) (user : User) :
    RepoState × Bool :=
  (createEmailVerificationToken st user.id user.email env.newSecureToken
      env.now defaultVerifyTokenDuration,
   env.emailOk)

/-- Embeds `AuthService.sendPasswordResetEmail`: the SES dispatch is TODO in the
source and is modelled from the spec by `env.emailOk`. -/
def sendPasswordResetEmail (env : Env) : Bool :=
  env.emailOk

/-- Embeds `AuthService.Login`: unknown email → `InvalidCredentials`; disabled →
`UserDisabled`; unverified → `UserNotVerified`; password failure →
`InvalidCredentials`; otherwise create a session, issue the access and
refresh tokens, stamp the last login (best-effort) and answer. -/
def login (env : Env) (st : RepoState) (req : LoginRequest) :
    Except AuthError (AuthResponse × RepoState) :=
  match getUserByEmail st req.email with
  | none => Except.error AuthError.invalidCredentials
  | some user =>
    if !user.isActive then Except.error AuthError.userDisabled
    else if !user.isVerified then Except.error AuthError.userNotVerified
    else if !verifyPasswordOk st user.id req.password then
      Except.error AuthError.invalidCredentials
    else
      let (session, st1) := createSession env st user.id req.deviceId
      let accessToken := generateAccessToken env.secret env.now user session.id
      let refreshTok := generateRefreshToken env.secret env.now user.id session.id
      let st2 := updateLastLogin st1 user.id env.now
      Except.ok
        ({ accessToken := accessToken, refreshToken := refreshTok,
           expiresIn := defaultSessionDuration, user := user }, st2)

/-- Embeds `AuthService.Register`: taken email → `UserAlreadyExists`; otherwise
create the unverified active user, then send the verification email — a
failure of that step is logged and does not fail the registration. -/
def register (env : Env) (st : RepoState) (req : RegisterRequest) :
    Except AuthError (User × RepoState) :=
  match getUserByEmail st req.email with
  | some _ => Except.error AuthError.userAlreadyExists
  | none =>
    let user : User :=
      { id := env.newId, email := req.email, name := req.name,
        isVerified := false, isActive := true, roles := ["user"],
        createdAt := env.now, updatedAt := env.now, lastLoginAt := none }
    let st1 := createUser st user (hashPassword req.password)
    let (st2, _emailOk) := sendVerificationEmail env st1 user
    Except.ok (user, st2)

/-- Embeds `AuthService.Logout`: with a session id deactivate that session,
without one deactivate every session of the user. -/
def logout (st : RepoState) (userID sessionID : String) : RepoState :=
  if sessionID ≠ "" then deactivateSession st sessionID
  else deactivateUserSessions st userID

/-- Embeds `AuthService.RefreshToken`: parse failure → `InvalidToken`; missing
user → `InvalidToken`; disabled user → `UserDisabled`; missing session →
`InvalidToken`; inactive or expired session → `TokenExpired`; otherwise
rotate both tokens under the same session id without touching the state. -/
def refreshToken (env : Env) (st : RepoState) (t : SignedToken) :
    Except AuthError (AuthResponse × RepoState) :=
  match parseRefreshToken env.secret env.now t with
  | none => Except.error AuthError.invalidToken
  | some claims =>
    match getUser st claims.userID with
    | none => Except.error AuthError.invalidToken
    | some user =>
      if !user.isActive then Except.error AuthError.userDisabled
      else
        match getSession st claims.sessionID with
        | none => Except.error AuthError.invalidToken
        | some session =>
          if !session.isActive || Session.isExpired env.now session then
            Except.error AuthError.tokenExpired
          else
            Except.ok
              ({ accessToken := generateAccessToken env.secret env.now user session.id,
                 refreshToken := generateRefreshToken env.secret env.now user.id session.id,
                 expiresIn := defaultSessionDuration, user := user }, st)

/-- Embeds `AuthService.ForgotPassword`: unknown email → silent success; else
mint and store a reset token (1 h) and dispatch the reset email — whose
failure the source returns as an error. -/
def forgotPassword (env : Env) (st : RepoState) (email : String) :
    Except AuthError RepoState :=
  match getUserByEmail st email with
  | none => Except.ok st
  | some user =>
    let st1 := createPasswordResetToken st user.id env.newSecureToken env.now
        defaultResetTokenDuration
    if sendPasswordResetEmail env then Except.ok st1
    else Except.error (AuthError.internal "failed to send reset email")

/-- Embeds `AuthService.ResetPassword`: invalid/used/expired token →
`InvalidToken`; otherwise store the new hash, mark the token used, and
deactivate every session of the user. -/
def resetPassword (env : Env) (st : RepoState) (tok newPassword : String) :
    Except AuthError RepoState :=
  match verifyPasswordResetToken st tok env.now with
  | Except.error _ => Except.error AuthError.invalidToken
  | Except.ok userID =>
    let st1 := updatePassword st userID (hashPassword newPassword)
    let st2 := markPasswordResetTokenUsed st1 tok
    let st3 := deactivateUserSessions st2 userID
    Except.ok st3

/-- Embeds `AuthService.ChangePassword`: current-password failure →
`InvalidCredentials`; otherwise store the new hash. -/
def changePassword (st : RepoState) (userID currentPassword newPassword : String) :
    Except AuthError RepoState :=
  if !verifyPasswordOk st userID currentPassword then
    Except.error AuthError.invalidCredentials
  else
    Except.ok (updatePassword st userID (hashPassword newPassword))

/-- Embeds `AuthService.VerifyEmail`: invalid/used/expired token →
`InvalidToken`; otherwise mark the user verified and the token used. -/
def verifyEmail (env : Env) (st : RepoState) (tok : String) :
    Except AuthError RepoState :=
  match verifyEmailToken st tok env.now with
  | Except.error _ => Except.error AuthError.invalidToken
  | Except.ok userID =>
    let st1 := markUserVerified st userID
    let st2 := markEmailTokenUsed st1 tok
    Except.ok st2

/-- Embeds `AuthService.ResendVerification`: unknown or already-verified email →
silent success; otherwise resend — a failure of the email step the source
returns as an error. -/
def resendVerification (env : Env) (st : RepoState) (email : String) :
    Except AuthError RepoState :=
  match getUserByEmail st email with
  | none => Except.ok st
  | some user =>
    if user.isVerified then Except.ok st
    else
      let (st1, ok) := sendVerificationEmail env st user
      if ok then Except.ok st1
      else Except.error (AuthError.internal "failed to send verification email")

/-- Embeds `AuthService.RevokeSession`: missing session → `SessionNotFound`;
session of another user → the same `SessionNotFound`; otherwise
deactivate it. -/
def revokeSession (st : RepoState) (userID sessionID : String) :
    Except AuthError RepoState :=
  match getSession st sessionID with
  | none => Except.error AuthError.sessionNotFound
  | some session =>
    if session.userId ≠ userID then Except.error AuthError.sessionNotFound
    else Except.ok (deactivateSession st sessionID)

/-- The body of an authenticated `POST /logout` request as seen by
`AuthHandlers.Logout` after transport: empty, non-empty but not valid
JSON, or a well-formed `LogoutRequest` carrying `session_id`. -/
inductive LogoutBody where
  | empty
  | malformed
  | wellFormed (sessionId : String)
  deriving DecidableEq, Repr

/-- The session id `AuthHandlers.Logout` passes to the service: an empty
body skips unmarshalling, a malformed body logs the unmarshal error and
keeps the zero-value request (so the id is `""`), a well-formed body
yields its `session_id`. -/
def logoutRequestSessionId : LogoutBody → String
  | LogoutBody.empty => ""
  | LogoutBody.malformed => ""
  | LogoutBody.wellFormed sid => sid

/-- Embeds `AuthHandlers.Logout`: missing claims → 401; otherwise call
`AuthService.Logout` with the extracted session id and answer 200. The
result is the HTTP status paired with the post-state. -/
def logoutHandler (st : RepoState) (claims : Option UserClaims)
    (body : LogoutBody) : Nat × RepoState :=
  match claims with
  | none => (401, st)
  | some c => (200, logout st c.userID (logoutRequestSessionId body))

/-! ### Helper lemmas about the repository model -/

/-- Finding through a structure-preserving map: when `f` does not change
the truth of the search predicate, searching the mapped list is mapping
the search result. -/
theorem find?_map_pres {α : Type} (f : α → α) (p : α → Bool)
    (hf : ∀ x, p (f x) = p x) :
    ∀ l : List α, (l.map f).find? p = (l.find? p).map f := by
  intro l
  induction l with
  | nil => rfl
  | cons a t ih =>
    by_cases hpa : p a = true
    · rw [List.map_cons, List.find?_cons_of_pos _ (by rw [hf]; exact hpa),
        List.find?_cons_of_pos _ hpa, Option.map_some']
    · rw [List.map_cons, List.find?_cons_of_neg _ (by rw [hf]; exact hpa),
        List.find?_cons_of_neg _ hpa, ih]

theorem getUser_createSessionRepo (st : RepoState) (s : Session) (x : String) :
    getUser (createSessionRepo st s) x = getUser st x := rfl

theorem getUser_updatePassword (st : RepoState) (u h x : String) :
    getUser (updatePassword st u h) x = getUser st x := rfl

theorem getUser_markPasswordResetTokenUsed (st : RepoState) (tok x : String) :
    getUser (markPasswordResetTokenUsed st tok) x = getUser st x := rfl

theorem getUser_deactivateUserSessions (st : RepoState) (u x : String) :
    getUser (deactivateUserSessions st u) x = getUser st x := rfl

theorem getSession_updateLastLogin (st : RepoState) (u : String) (t : Int) (x : String) :
    getSession (updateLastLogin st u t) x = getSession st x := rfl

/-- Stamping the last login rewrites the user record in place, so lookup
commutes with the stamping function. -/
theorem getUser_updateLastLogin (st : RepoState) (u : String) (t : Int) (x : String) :
    getUser (updateLastLogin st u t) x
      = (getUser st x).map
          (fun v => if v.id == u then { v with lastLoginAt := some t } else v) := by
  unfold getUser updateLastLogin
  exact find?_map_pres _ _
    (fun v => by by_cases h : v.id == u <;> simp [h]) st.users

/-- Deactivating every session of a user rewrites sessions in place, so
lookup commutes with the deactivation function. -/
theorem getSession_deactivateUserSessions (st : RepoState) (u x : String) :
    getSession (deactivateUserSessions st u) x
      = (getSession st x).map
          (fun s => if s.userId == u then { s with isActive := false } else s) := by
  unfold getSession deactivateUserSessions
  exact find?_map_pres _ _
    (fun s => by by_cases h : s.userId == u <;> simp [h]) st.sessions

/-- The session just created is found under its id. -/
theorem getSession_createSessionRepo_self (st : RepoState) (s : Session) :
    getSession (createSessionRepo st s) s.id = some s := by
  unfold getSession createSessionRepo
  exact List.find?_cons_of_pos _ (by simp)

/-- After `DeactivateUserSessions`, every session of the user is
inactive. -/
theorem mem_deactivateUserSessions (st : RepoState) (uid : String) (s : Session)
    (hs : s ∈ (deactivateUserSessions st uid).sessions) (hu : s.userId = uid) :
    s.isActive = false := by
  unfold deactivateUserSessions at hs
  simp only [] at hs
  rw [List.mem_map] at hs
  obtain ⟨x, _, hx⟩ := hs
  by_cases hxu : x.userId == uid
  · rw [if_pos hxu] at hx
    rw [← hx]
  · rw [if_neg hxu] at hx
    rw [← hx] at hu
    exact absurd (by simp [hu]) hxu

/-- A session of the user found after `DeactivateUserSessions` is
inactive. -/
theorem getSession_deactivated_inactive (st : RepoState) (uid sid : String) (s : Session)
    (h : getSession (deactivateUserSessions st uid) sid = some s) (hu : s.userId = uid) :
    s.isActive = false :=
  mem_deactivateUserSessions st uid s (List.mem_of_find?_eq_some h) hu

theorem getPasswordHash_setHash_self :
    ∀ (l : List (String × String)) (uid h : String),
      ((setHash l uid h).find? (fun kv => kv.1 == uid)).map (fun kv => kv.2) = some h := by
  intro l
  induction l with
  | nil => intro uid h; simp [setHash]
  | cons kv t ih =>
    intro uid h
    by_cases hk : kv.1 == uid
    · rw [setHash, if_pos hk]
      simp
    · rw [setHash, if_neg hk, List.find?_cons_of_neg _ (by simpa using hk)]
      exact ih uid h

theorem getPasswordHash_setHash_other :
    ∀ (l : List (String × String)) (uid h uid' : String), uid' ≠ uid →
      ((setHash l uid h).find? (fun kv => kv.1 == uid')).map (fun kv => kv.2)
        = (l.find? (fun kv => kv.1 == uid')).map (fun kv => kv.2) := by
  intro l
  induction l with
  | nil =>
    intro uid h uid' hne
    rw [setHash]
    simp [List.find?, show (uid == uid') = false by simpa using (Ne.symm hne)]
  | cons kv t ih =>
    intro uid h uid' hne
    by_cases hk : kv.1 == uid
    · have hkeq : kv.1 = uid := by simpa using hk
      have hkv : (kv.1 == uid') = false := by simp [hkeq, Ne.symm hne]
      rw [setHash, if_pos hk]
      simp [List.find?, hkv, show (uid == uid') = false by simp [Ne.symm hne]]
    · rw [setHash, if_neg hk]
      by_cases hk' : kv.1 == uid'
      · simp [List.find?, hk']
      · simp only [List.find?, hk']
        exact ih uid h uid' hne

theorem getPasswordHash_updatePassword_self (st : RepoState) (uid h : String) :
    getPasswordHash (updatePassword st uid h) uid = some h :=
  getPasswordHash_setHash_self st.hashes uid h

theorem getPasswordHash_updatePassword_other (st : RepoState) (uid h uid' : String)
    (hne : uid' ≠ uid) :
    getPasswordHash (updatePassword st uid h) uid' = getPasswordHash st uid' :=
  getPasswordHash_setHash_other st.hashes uid h uid' hne

/-- A password-reset token that was just marked used no longer verifies,
whatever the clock says. -/
theorem verifyReset_after_mark (st : RepoState) (tok : String) (now now' : Int)
    (uid : String)
    (h : verifyPasswordResetToken st tok now = Except.ok uid) :
    verifyPasswordResetToken (markPasswordResetTokenUsed st tok) tok now'
      = Except.error TokenRepoErr.notFound := by
  unfold verifyPasswordResetToken at h ⊢
  unfold markPasswordResetTokenUsed
  simp only []
  rw [find?_map_pres _ _
    (fun r => by by_cases hr : r.tokenValue == tok <;> simp [hr]) st.resetTokens]
  cases hfind : st.resetTokens.find? (fun r => r.tokenValue == tok) with
  | none => rw [hfind] at h; exact absurd h (by simp)
  | some r =>
    have hr : (r.tokenValue == tok) = true := by simpa using List.find?_some hfind
    rw [Option.map_some', if_pos hr]
    simp

/-- An email-verification token that was just marked used no longer
verifies, whatever the clock says. -/
theorem verifyEmailTok_after_mark (st : RepoState) (tok : String) (now now' : Int)
    (uid : String)
    (h : verifyEmailToken st tok now = Except.ok uid) :
    verifyEmailToken (markEmailTokenUsed st tok) tok now'
      = Except.error TokenRepoErr.notFound := by
  unfold verifyEmailToken at h ⊢
  unfold markEmailTokenUsed
  simp only []
  rw [find?_map_pres _ _
    (fun r => by by_cases hr : r.tokenValue == tok <;> simp [hr]) st.verifyTokens]
  cases hfind : st.verifyTokens.find? (fun r => r.tokenValue == tok) with
  | none => rw [hfind] at h; exact absurd h (by simp)
  | some r =>
    have hr : (r.tokenValue == tok) = true := by simpa using List.find?_some hfind
    rw [Option.map_some', if_pos hr]
    simp

/-- Parsing a freshly generated refresh token with the signing secret
succeeds while the clock is strictly before the token's expiry and its
ids are non-empty. -/
theorem parse_generateRefreshToken (secret : String) (now now' : Int)
    (uid sid : String)
    (hexp : now' < now + defaultRefreshDuration) (hu : uid ≠ "") (hs : sid ≠ "") :
    parseRefreshToken secret now' (generateRefreshToken secret now uid sid)
      = some { userID := uid, sessionID := sid } := by
  unfold parseRefreshToken jwtParse generateRefreshToken
  simp [claimExp, lookupClaim, claimString, TokenTypeRefresh, hexp, hu, hs]

theorem claimString_access_session_id (secret : String) (now : Int) (u : User)
    (sid : String) :
    claimString (generateAccessToken secret now u sid).payload "session_id" = sid := rfl

theorem claimString_refresh_session_id (secret : String) (now : Int)
    (uid sid : String) :
    claimString (generateRefreshToken secret now uid sid).payload "session_id" = sid := rfl

theorem getSession_updatePassword (st : RepoState) (u h x : String) :
    getSession (updatePassword st u h) x = getSession st x := rfl

theorem getSession_markPasswordResetTokenUsed (st : RepoState) (tok x : String) :
    getSession (markPasswordResetTokenUsed st tok) x = getSession st x := rfl

/-! ### Concrete fixtures for witnesses and counterexamples -/

/-- A verified, active user. -/
def aliceUser : User :=
  { id := "u1", email := "alice@example.com", name := "Alice",
    isVerified := true, isActive := true, roles := ["user"],
    createdAt := 0, updatedAt := 0, lastLoginAt := none }

/-- A deactivated user. -/
def bobDisabled : User :=
  { aliceUser with id := "u2", email := "bob@example.com", name := "Bob", isActive := false }

/-- A registered but not-yet-verified user. -/
def carolUnverified : User :=
  { aliceUser with id := "u3", email := "carol@example.com", name := "Carol", isVerified := false }

/-- An active session of the verified user. -/
def aliceSession : Session :=
  { id := "s1", userId := "u1", deviceId := "", userAgent := "", ipAddress := "",
    createdAt := 0, expiresAt := defaultRefreshDuration, isActive := true }

/-- An inactive session of the disabled user. -/
def bobSession : Session :=
  { aliceSession with id := "s2", userId := "u2", isActive := false }

/-- A small repository state with three users, two sessions, one pending
password-reset token and one pending email-verification token. -/
def baseState : RepoState :=
  { users := [aliceUser, bobDisabled, carolUnverified],
    hashes := [("u1", hashPassword "Secret123!"), ("u2", hashPassword "BobPass12!"),
               ("u3", hashPassword "CarolPass1!")],
    sessions := [aliceSession, bobSession],
    resetTokens := [{ userId := "u1", tokenValue := "rt1",
                      expiresAt := defaultResetTokenDuration, used := false,
                      createdAt := 0 }],
    verifyTokens := [{ userId := "u3", tokenValue := "vt1",
                       email := "carol@example.com",
                       expiresAt := defaultVerifyTokenDuration, used := false,
                       createdAt := 0 }],
    anonSessions := [] }

/-- The ambient inputs used by the concrete runs. -/
def demoEnv : Env :=
  { secret := "jwt-secret", now := 0, newId := "fresh-id",
    newSecureToken := "fresh-token", emailOk := true }

/-- The same ambient inputs with the external email dispatch failing. -/
def demoEnvNoEmail : Env := { demoEnv with emailOk := false }

/-- The state after a successful password reset with token `rt1`. -/
def stAfterReset : RepoState :=
  deactivateUserSessions
    (markPasswordResetTokenUsed
      (updatePassword baseState "u1" (hashPassword "NewPass1!")) "rt1") "u1"

/-- The state after a successful email verification with token `vt1`. -/
def stAfterVerify : RepoState :=
  markEmailTokenUsed (markUserVerified baseState "u3") "vt1"

/-- The state after a successful password change by the verified user. -/
def stAfterChange : RepoState :=
  updatePassword baseState "u1" (hashPassword "Fresh1234!")

/-! ### Claim theorems -/

/-- C1: evaluation at the failing input. An HMAC-signed, unexpired
access-typed token is indeed rejected by `parseRefreshToken` (first
conjunct), but a well-formed, unexpired refresh-typed token presented as a
bearer credential is ACCEPTED by `AuthMiddleware`, which validates the
signature, the expiry and the `sub` claim but never inspects the `type`
claim (second conjunct) — contrary to the claim and to the spec's
requirement that a refresh token must never be accepted where an access
token is expected. -/
theorem c1_middleware_accepts_refresh_token :
    parseRefreshToken "jwt-secret" 0 (generateAccessToken "jwt-secret" 0 aliceUser "s1")
      = none ∧
    authMiddleware "jwt-secret" 0
        (AuthHeader.bearer (generateRefreshToken "jwt-secret" 0 "u1" "s1"))
      = MwOutcome.proceed { userID := "u1", email := "", roles := [] } :=
  ⟨rfl, rfl⟩

/-- C2: counterexample. For a signature/type/expiry-valid refresh token
whose user exists but is disabled (and whose session is inactive),
`RefreshToken` returns `UserDisabled` — not the `InvalidToken` the claim
requires for a disabled user, and not the `TokenExpired` it requires for
an inactive session. -/
theorem c2_counterexample :
    parseRefreshToken demoEnv.secret demoEnv.now
        (generateRefreshToken "jwt-secret" 0 "u2" "s2")
      = some { userID := "u2", sessionID := "s2" } ∧
    refreshToken demoEnv baseState (generateRefreshToken "jwt-secret" 0 "u2" "s2")
      = Except.error AuthError.userDisabled ∧
    AuthError.userDisabled ≠ AuthError.invalidToken ∧
    AuthError.userDisabled ≠ AuthError.tokenExpired :=
  ⟨rfl, rfl, by decide, by decide⟩

/-- C2 (amended): for a signature/type/expiry-valid refresh token, the
error taxonomy of `RefreshToken` is: missing user → `InvalidToken`;
existing but disabled user → `UserDisabled`; (for an active user) missing
session → `InvalidToken`; inactive or expired session → `TokenExpired`. -/
theorem c2_refresh_error_taxonomy (env : Env) (st : RepoState) (t : SignedToken)
    (c : RefreshClaims)
    (hp : parseRefreshToken env.secret env.now t = some c) :
    (getUser st c.userID = none →
      refreshToken env st t = Except.error AuthError.invalidToken) ∧
    (∀ u, getUser st c.userID = some u → u.isActive = false →
      refreshToken env st t = Except.error AuthError.userDisabled) ∧
    (∀ u, getUser st c.userID = some u → u.isActive = true →
      getSession st c.sessionID = none →
      refreshToken env st t = Except.error AuthError.invalidToken) ∧
    (∀ u s, getUser st c.userID = some u → u.isActive = true →
      getSession st c.sessionID = some s →
      (s.isActive = false ∨ env.now > s.expiresAt) →
      refreshToken env st t = Except.error AuthError.tokenExpired) := by
  refine ⟨?_, ?_, ?_, ?_⟩
  · intro hu
    simp [refreshToken, hp, hu]
  · intro u hu hact
    simp [refreshToken, hp, hu, hact]
  · intro u hu hact hs
    simp [refreshToken, hp, hu, hact, hs]
  · intro u s hu hact hs hbad
    rcases hbad with hb | hb
    · simp [refreshToken, hp, hu, hact, hs, hb]
    · have hexp : Session.isExpired env.now s = true := decide_eq_true hb
      simp [refreshToken, hp, hu, hact, hs, hexp]

/-- C2 witness: a refresh token naming an unknown user fails with
`InvalidToken`. -/
theorem c2_refresh_error_taxonomy_witness :
    refreshToken demoEnv baseState (generateRefreshToken "jwt-secret" 0 "ghost" "s1")
      = Except.error AuthError.invalidToken :=
  (c2_refresh_error_taxonomy demoEnv baseState
      (generateRefreshToken "jwt-secret" 0 "ghost" "s1")
      { userID := "ghost", sessionID := "s1" } rfl).1 rfl

/-- C3: after a successful `ResetPassword`, a refresh token previously
issued to the same user (naming one of the user's sessions present in the
pre-reset state) fails a subsequent `RefreshToken` call with
`TokenExpired`, because the reset deactivated every session of the
user. -/
theorem c3_reset_invalidates_prior_refresh (env env2 : Env) (st st2 : RepoState)
    (tok newPw uid : String) (rt : SignedToken) (c : RefreshClaims)
    (u : User) (s : Session)
    (hverify : verifyPasswordResetToken st tok env.now = Except.ok uid)
    (hreset : resetPassword env st tok newPw = Except.ok st2)
    (hparse : parseRefreshToken env2.secret env2.now rt = some c)
    (howner : c.userID = uid)
    (hsess : getSession st c.sessionID = some s)
    (hsown : s.userId = uid)
    (huser : getUser st uid = some u)
    (hactive : u.isActive = true) :
    refreshToken env2 st2 rt = Except.error AuthError.tokenExpired := by
  have hst2 : st2 = deactivateUserSessions
      (markPasswordResetTokenUsed (updatePassword st uid (hashPassword newPw)) tok)
      uid := by
    unfold resetPassword at hreset
    rw [hverify] at hreset
    exact (Except.ok.inj hreset).symm
  subst hst2
  have hu2 : getUser (deactivateUserSessions
      (markPasswordResetTokenUsed (updatePassword st uid (hashPassword newPw)) tok)
      uid) c.userID = some u := by
    rw [getUser_deactivateUserSessions, getUser_markPasswordResetTokenUsed,
      getUser_updatePassword, howner, huser]
  have hs2 : getSession (deactivateUserSessions
      (markPasswordResetTokenUsed (updatePassword st uid (hashPassword newPw)) tok)
      uid) c.sessionID = some { s with isActive := false } := by
    rw [getSession_deactivateUserSessions, getSession_markPasswordResetTokenUsed,
      getSession_updatePassword, hsess, Option.map_some']
    simp [hsown]
  simp [refreshToken, hparse, hu2, hs2, hactive]

/-- C3 witness: the concrete pre-issued refresh token of the verified
user fails with `TokenExpired` after the reset. -/
theorem c3_reset_invalidates_prior_refresh_witness :
    refreshToken demoEnv stAfterReset (generateRefreshToken "jwt-secret" 0 "u1" "s1")
      = Except.error AuthError.tokenExpired :=
  c3_reset_invalidates_prior_refresh demoEnv demoEnv baseState stAfterReset
    "rt1" "NewPass1!" "u1" (generateRefreshToken "jwt-secret" 0 "u1" "s1")
    { userID := "u1", sessionID := "s1" } aliceUser aliceSession
    rfl rfl rfl rfl rfl rfl rfl rfl

/-- C4: counterexample. For a registered but unverified user, `Login`
with a wrong password returns `UserNotVerified`, not the
`InvalidCredentials` the claim requires for every registered email with a
non-verifying password — the active/verified checks precede the password
check, so the two runs are distinguishable. -/
theorem c4_counterexample :
    login demoEnv baseState
        { email := "carol@example.com", password := "wrong-password", deviceId := "" }
      = Except.error AuthError.userNotVerified ∧
    login demoEnv baseState
        { email := "nobody@example.com", password := "wrong-password", deviceId := "" }
      = Except.error AuthError.invalidCredentials ∧
    AuthError.userNotVerified ≠ AuthError.invalidCredentials :=
  ⟨rfl, rfl, by decide⟩

/-- C4 (amended): for every registered, ACTIVE and VERIFIED user with a
non-verifying password, and for every email with no registered user,
`Login` returns the identical `InvalidCredentials` error (and in neither
run does the state change). -/
theorem c4_login_anti_enumeration (env : Env) (st : RepoState)
    (email1 email2 pw1 pw2 dev1 dev2 : String) (u : User)
    (h1 : getUserByEmail st email1 = some u)
    (h2 : u.isActive = true)
    (h3 : u.isVerified = true)
    (h4 : verifyPasswordOk st u.id pw1 = false)
    (h5 : getUserByEmail st email2 = none) :
    login env st { email := email1, password := pw1, deviceId := dev1 }
      = Except.error AuthError.invalidCredentials ∧
    login env st { email := email2, password := pw2, deviceId := dev2 }
      = Except.error AuthError.invalidCredentials := by
  constructor
  · simp [login, h1, h2, h3, h4]
  · simp [login, h5]

/-- C4 witness: wrong password for the verified user and an unknown email
both yield `InvalidCredentials`. -/
theorem c4_login_anti_enumeration_witness :
    login demoEnv baseState
        { email := "alice@example.com", password := "wrong-password", deviceId := "" }
      = Except.error AuthError.invalidCredentials ∧
    login demoEnv baseState
        { email := "nobody@example.com", password := "whatever12", deviceId := "" }
      = Except.error AuthError.invalidCredentials :=
  c4_login_anti_enumeration demoEnv baseState "alice@example.com" "nobody@example.com"
    "wrong-password" "whatever12" "" "" aliceUser rfl rfl rfl rfl rfl

/-- C5: a `PasswordResetToken` and an `EmailVerificationToken` are
single-use — after a first successful `ResetPassword` (respectively
`VerifyEmail`), a second call with the same token fails with
`InvalidToken`, whatever the clock of the second call says (in particular
even before `expiresAt`). -/
theorem c5_tokens_single_use (env env2 env3 env4 : Env) (st st1 st2 : RepoState)
    (tokR pw pw2 tokV : String)
    (h1 : resetPassword env st tokR pw = Except.ok st1)
    (h2 : verifyEmail env3 st tokV = Except.ok st2) :
    resetPassword env2 st1 tokR pw2 = Except.error AuthError.invalidToken ∧
    verifyEmail env4 st2 tokV = Except.error AuthError.invalidToken := by
  constructor
  · unfold resetPassword at h1
    cases hv : verifyPasswordResetToken st tokR env.now with
    | error e => rw [hv] at h1; exact absurd h1 (by simp)
    | ok uid =>
      rw [hv] at h1
      have hst1 : st1 = deactivateUserSessions
          (markPasswordResetTokenUsed (updatePassword st uid (hashPassword pw)) tokR)
          uid := (Except.ok.inj h1).symm
      subst hst1
      unfold resetPassword
      rw [show verifyPasswordResetToken
            (deactivateUserSessions
              (markPasswordResetTokenUsed
                (updatePassword st uid (hashPassword pw)) tokR) uid) tokR env2.now
          = verifyPasswordResetToken (markPasswordResetTokenUsed st tokR) tokR env2.now
          from rfl,
        verifyReset_after_mark st tokR env.now env2.now uid hv]
  · unfold verifyEmail at h2
    cases hv : verifyEmailToken st tokV env3.now with
    | error e => rw [hv] at h2; exact absurd h2 (by simp)
    | ok uid =>
      rw [hv] at h2
      have hst2 : st2 = markEmailTokenUsed (markUserVerified st uid) tokV :=
        (Except.ok.inj h2).symm
      subst hst2
      unfold verifyEmail
      rw [show verifyEmailToken (markEmailTokenUsed (markUserVerified st uid) tokV)
            tokV env4.now
          = verifyEmailToken (markEmailTokenUsed st tokV) tokV env4.now from rfl,
        verifyEmailTok_after_mark st tokV env3.now env4.now uid hv]

/-- C5 witness: reusing the consumed reset and verification tokens fails
with `InvalidToken`. -/
theorem c5_tokens_single_use_witness :
    resetPassword demoEnv stAfterReset "rt1" "OtherPw12!"
      = Except.error AuthError.invalidToken ∧
    verifyEmail demoEnv stAfterVerify "vt1" = Except.error AuthError.invalidToken :=
  c5_tokens_single_use demoEnv demoEnv demoEnv demoEnv baseState stAfterReset
    stAfterVerify "rt1" "NewPass1!" "OtherPw12!" "vt1" rfl rfl

/-- C6: `RevokeSession` returns exactly the same `SessionNotFound` error
for a session owned by a different user as for a nonexistent session id
(and in neither case does the state change). -/
theorem c6_revoke_no_existence_leak (st : RepoState) (uid sid1 sid2 : String)
    (s : Session)
    (h1 : getSession st sid1 = some s)
    (h2 : s.userId ≠ uid)
    (h3 : getSession st sid2 = none) :
    revokeSession st uid sid1 = Except.error AuthError.sessionNotFound ∧
    revokeSession st uid sid2 = Except.error AuthError.sessionNotFound := by
  constructor
  · simp [revokeSession, h1, h2]
  · simp [revokeSession, h3]

/-- C6 witness: revoking another user's session and revoking an unknown
session id both yield `SessionNotFound`. -/
theorem c6_revoke_no_existence_leak_witness :
    revokeSession baseState "u1" "s2" = Except.error AuthError.sessionNotFound ∧
    revokeSession baseState "u1" "nosuch" = Except.error AuthError.sessionNotFound :=
  c6_revoke_no_existence_leak baseState "u1" "s2" "nosuch" bobSession
    rfl (by decide) rfl

/-- C7: counterexample. When the (spec-modelled) external email dispatch
fails, `ForgotPassword` for an existing email returns an error instead of
reporting success — contradicting the claim that a dispatch failure never
fails the surrounding operation. -/
theorem c7_counterexample :
    forgotPassword demoEnvNoEmail baseState "alice@example.com"
      = Except.error (AuthError.internal "failed to send reset email") :=
  rfl

/-- C7 (amended): `Register` indeed never fails from an email-dispatch
failure (its outcome is independent of the dispatch bit), but
`ForgotPassword` for an existing email and `ResendVerification` for an
existing unverified email both propagate a dispatch failure as an
error. -/
theorem c7_email_dispatch_failure (env : Env) (st : RepoState)
    (req : RegisterRequest) (email1 email2 : String) (ua ub : User)
    (h1 : getUserByEmail st email1 = some ua)
    (h2 : getUserByEmail st email2 = some ub)
    (h3 : ub.isVerified = false)
    (h4 : env.emailOk = false) :
    (∀ b : Bool, register { env with emailOk := b } st req = register env st req) ∧
    forgotPassword env st email1
      = Except.error (AuthError.internal "failed to send reset email") ∧
    resendVerification env st email2
      = Except.error (AuthError.internal "failed to send verification email") := by
  refine ⟨?_, ?_, ?_⟩
  · intro b
    rfl
  · unfold forgotPassword sendPasswordResetEmail
    rw [h1, h4]
    simp
  · unfold resendVerification sendVerificationEmail
    rw [h2]
    simp [h3, h4]

/-- C7 witness: with the dispatch failing, registration still succeeds
while forgot-password and resend-verification return errors. -/
theorem c7_email_dispatch_failure_witness :
    forgotPassword demoEnvNoEmail baseState "alice@example.com"
      = Except.error (AuthError.internal "failed to send reset email") ∧
    resendVerification demoEnvNoEmail baseState "carol@example.com"
      = Except.error (AuthError.internal "failed to send verification email") :=
  ⟨(c7_email_dispatch_failure demoEnvNoEmail baseState
      { email := "new@example.com", password := "NewUser12!", name := "New" }
      "alice@example.com" "carol@example.com" aliceUser carolUnverified
      rfl rfl rfl rfl).2.1,
   (c7_email_dispatch_failure demoEnvNoEmail baseState
      { email := "new@example.com", password := "NewUser12!", name := "New" }
      "alice@example.com" "carol@example.com" aliceUser carolUnverified
      rfl rfl rfl rfl).2.2⟩

/-- C8: for a registered, verified, active user with a verifying
password, `Login` succeeds and a subsequent `RefreshToken` with the
returned refresh token (any time strictly before the 7-day expiry) succeeds,
leaves the state unchanged (no new session), and issues a new access
token and a new refresh token whose `session_id` claim is the id of the
session created by the login. -/
theorem c8_login_then_refresh_rotation (env env2 : Env) (st : RepoState)
    (email pw dev : String) (u : User)
    (h1 : getUserByEmail st email = some u)
    (h2 : getUser st u.id = some u)
    (h3 : u.isActive = true)
    (h4 : u.isVerified = true)
    (h5 : verifyPasswordOk st u.id pw = true)
    (h6 : u.id ≠ "")
    (h7 : env.newId ≠ "")
    (h8 : env2.secret = env.secret)
    (h9 : env2.now < env.now + defaultRefreshDuration) :
    ∃ resp st2 resp2,
      login env st { email := email, password := pw, deviceId := dev }
        = Except.ok (resp, st2) ∧
      refreshToken env2 st2 resp.refreshToken = Except.ok (resp2, st2) ∧
      claimString resp.refreshToken.payload "session_id" = env.newId ∧
      claimString resp2.accessToken.payload "session_id" = env.newId ∧
      claimString resp2.refreshToken.payload "session_id" = env.newId := by
  have hlogin : login env st { email := email, password := pw, deviceId := dev }
      = Except.ok
          ({ accessToken := generateAccessToken env.secret env.now u env.newId,
             refreshToken := generateRefreshToken env.secret env.now u.id env.newId,
             expiresIn := defaultSessionDuration, user := u },
           updateLastLogin (createSessionRepo st (loginSession env u.id dev))
             u.id env.now) := by
    unfold login createSession
    rw [h1]
    simp [h3, h4, h5, loginSession]
  have hu2 : getUser (updateLastLogin (createSessionRepo st (loginSession env u.id dev))
      u.id env.now) u.id = some { u with lastLoginAt := some env.now } := by
    rw [getUser_updateLastLogin, getUser_createSessionRepo, h2, Option.map_some']
    simp
  have hs2 : getSession (updateLastLogin (createSessionRepo st (loginSession env u.id dev))
      u.id env.now) env.newId = some (loginSession env u.id dev) := by
    rw [getSession_updateLastLogin]
    exact getSession_createSessionRepo_self st (loginSession env u.id dev)
  have hparse : parseRefreshToken env2.secret env2.now
      (generateRefreshToken env.secret env.now u.id env.newId)
      = some { userID := u.id, sessionID := env.newId } := by
    rw [h8]
    exact parse_generateRefreshToken env.secret env.now env2.now u.id env.newId h9 h6 h7
  have hnexp : Session.isExpired env2.now (loginSession env u.id dev) = false := by
    simp [Session.isExpired, loginSession]
    exact le_of_lt h9
  have hrefresh : refreshToken env2
      (updateLastLogin (createSessionRepo st (loginSession env u.id dev)) u.id env.now)
      (generateRefreshToken env.secret env.now u.id env.newId)
      = Except.ok
          ({ accessToken := generateAccessToken env2.secret env2.now
               { u with lastLoginAt := some env.now } env.newId,
             refreshToken := generateRefreshToken env2.secret env2.now u.id env.newId,
             expiresIn := defaultSessionDuration,
             user := { u with lastLoginAt := some env.now } },
           updateLastLogin (createSessionRepo st (loginSession env u.id dev))
             u.id env.now) := by
    simp only [refreshToken, hparse, hu2, hs2]
    simp [loginSession, h3, Session.isExpired, not_lt.mpr (le_of_lt h9)]
  exact ⟨_, _, _, hlogin, hrefresh, rfl, rfl, rfl⟩

/-- C8 witness: the concrete login-then-refresh run for the verified
user. -/
theorem c8_login_then_refresh_rotation_witness :
    ∃ resp st2 resp2,
      login demoEnv baseState
          { email := "alice@example.com", password := "Secret123!", deviceId := "" }
        = Except.ok (resp, st2) ∧
      refreshToken demoEnv st2 resp.refreshToken = Except.ok (resp2, st2) ∧
      claimString resp.refreshToken.payload "session_id" = demoEnv.newId ∧
      claimString resp2.accessToken.payload "session_id" = demoEnv.newId ∧
      claimString resp2.refreshToken.payload "session_id" = demoEnv.newId :=
  c8_login_then_refresh_rotation demoEnv demoEnv baseState
    "alice@example.com" "Secret123!" "" aliceUser
    rfl rfl rfl rfl rfl (by decide) (by decide) rfl (by decide)

/-- C9: a successful `ChangePassword` modifies only the stored password
hash of that user — users, sessions (of every user), reset tokens,
verification tokens and anonymous sessions are untouched, the user's hash
becomes the hash of the new password, and every other user's hash is
unchanged. -/
theorem c9_change_password_frame (st st2 : RepoState) (uid cur newPw : String)
    (h : changePassword st uid cur newPw = Except.ok st2) :
    st2.users = st.users ∧
    st2.sessions = st.sessions ∧
    st2.resetTokens = st.resetTokens ∧
    st2.verifyTokens = st.verifyTokens ∧
    st2.anonSessions = st.anonSessions ∧
    getPasswordHash st2 uid = some (hashPassword newPw) ∧
    ∀ uid2, uid2 ≠ uid → getPasswordHash st2 uid2 = getPasswordHash st uid2 := by
  unfold changePassword at h
  cases hv : verifyPasswordOk st uid cur with
  | false => rw [hv] at h; exact absurd h (by simp)
  | true =>
    rw [hv] at h
    simp only [Bool.not_true, Bool.false_eq_true, if_false] at h
    have hst2 : st2 = updatePassword st uid (hashPassword newPw) :=
      (Except.ok.inj h).symm
    subst hst2
    refine ⟨rfl, rfl, rfl, rfl, rfl,
      getPasswordHash_updatePassword_self st uid (hashPassword newPw), ?_⟩
    intro uid2 hne
    exact getPasswordHash_updatePassword_other st uid (hashPassword newPw) uid2 hne

/-- C9 witness: the concrete password change by the verified user. -/
theorem c9_change_password_frame_witness :
    stAfterChange.users = baseState.users ∧
    stAfterChange.sessions = baseState.sessions ∧
    stAfterChange.resetTokens = baseState.resetTokens ∧
    stAfterChange.verifyTokens = baseState.verifyTokens ∧
    stAfterChange.anonSessions = baseState.anonSessions ∧
    getPasswordHash stAfterChange "u1" = some (hashPassword "Fresh1234!") ∧
    ∀ uid2, uid2 ≠ "u1" →
      getPasswordHash stAfterChange uid2 = getPasswordHash baseState uid2 :=
  c9_change_password_frame baseState stAfterChange "u1" "Secret123!" "Fresh1234!" rfl

/-- C10: an authenticated `Logout` request with a non-empty body that is
not valid JSON is not rejected with a 400 — the handler answers 200 and
proceeds with an empty session id, so the service deactivates EVERY
session of the requesting user. -/
theorem c10_logout_malformed_body (st : RepoState) (c : UserClaims) :
    (logoutHandler st (some c) LogoutBody.malformed).1 = 200 ∧
    (logoutHandler st (some c) LogoutBody.malformed).2
      = deactivateUserSessions st c.userID ∧
    ∀ s ∈ (logoutHandler st (some c) LogoutBody.malformed).2.sessions,
      s.userId = c.userID → s.isActive = false := by
  refine ⟨rfl, rfl, ?_⟩
  intro s hs hu
  exact mem_deactivateUserSessions st c.userID s hs hu

/-- C10 witness: the concrete malformed-body logout of the verified
user. -/
theorem c10_logout_malformed_body_witness :
    (logoutHandler baseState
        (some { userID := "u1", email := "alice@example.com", roles := ["user"] })
        LogoutBody.malformed).1 = 200 ∧
    (logoutHandler baseState
        (some { userID := "u1", email := "alice@example.com", roles := ["user"] })
        LogoutBody.malformed).2 = deactivateUserSessions baseState "u1" ∧
    ∀ s ∈ (logoutHandler baseState
        (some { userID := "u1", email := "alice@example.com", roles := ["user"] })
        LogoutBody.malformed).2.sessions,
      s.userId = "u1" → s.isActive = false :=
  c10_logout_malformed_body baseState
    { userID := "u1", email := "alice@example.com", roles := ["user"] }

end MultitaskAuth
